import Mathlib

/-!
Verification development for the sns-lstm training script
(src/scripts/train.py) and the data-pipeline components its spec
describes.  Python code is shallowly embedded: fallible Python
expressions (attribute access, division, unbound locals, iterator
exhaustion) become Except values, position coordinates become exact
integers, and the stateful iterators become explicit state records.
Components whose code is imported by train.py but absent from the
repository snapshot (DataLoader / windower, coordinate helpers) are
modelled from the spec and say so in their doc comments.
-/

namespace SnsLstm

/-- Runtime conditions of the embedded script: the spec's taxonomy
(ConfigError, EndOfEpoch) together with the Python exceptions the
script itself can raise (ZeroDivisionError, UnboundLocalError,
AttributeError). -/
inductive TrainError where
  | configError
  | endOfEpoch
  | zeroDivision
  | unboundLocal
  | attributeError
  deriving DecidableEq, Repr

/-! ## Pooling-module dispatch (train.py lines 145-161) -/

/-- Configuration value of hparams.poolingModule: either a single name
or a list of names (for combined pooling). -/
inductive PoolingConfig where
  | single (name : String)
  | listOf (names : List String)
  deriving DecidableEq, Repr

/-- Result of the pooling-selection block in main: train.py either
installs a pooling module or leaves the local pooling_module = None. -/
structure ModelSetup where
  poolingModule : Option String
  deriving DecidableEq, Repr

/-- Embedding of train.py lines 145-161: pooling_module starts as None;
an isinstance-list check selects combined pooling, the strings "social"
and "occupancy" select their modules, and any other single name falls
through every elif, after which main proceeds to build SocialModel with
pooling_module still None.  No branch raises. -/
def setupPooling (pm : PoolingConfig) : Except TrainError ModelSetup :=
  match pm with
  | .listOf _ => .ok { poolingModule := some "combined" }
  | .single n =>
      if n = "social" then .ok { poolingModule := some "social" }
      else if n = "occupancy" then .ok { poolingModule := some "occupancy" }
      else .ok { poolingModule := none }

/-! ## Validation phase (train.py lines 229-240) -/

/-- Python division: raises ZeroDivisionError on a zero divisor,
otherwise returns the exact quotient. -/
def pyDiv (a b : ℚ) : Except TrainError ℚ :=
  if b = 0 then .error .zeroDivision else .ok (a / b)

/-- Embedding of train.py lines 230-236: loss_val accumulates the loss
of each of the num_sequences validation steps, then
mean_val = loss_val / val_loader.num_sequences with no guard on the
divisor. -/
def validationPhase (losses : Nat → ℚ) (numSequences : Nat) :
    Except TrainError ℚ :=
  pyDiv (∑ i ∈ Finset.range numSequences, losses i) (numSequences : ℚ)

/-- Modelled from the spec: DataLoader construction (utils.DataLoader is
not in the repository snapshot).  Per the spec it always constructs,
exposes the number of produced windows as num_sequences, and raises the
recoverable EmptyDatasetWarning exactly when zero windows were produced
for the requested split. -/
structure LoaderResult where
  numSequences : Nat
  emptyWarning : Bool
  deriving DecidableEq, Repr

/-- Modelled from the spec: building a DataLoader over a split that
yields numWindows windows constructs successfully and sets the
EmptyDatasetWarning flag iff numWindows = 0. -/
def mkLoader (numWindows : Nat) : LoaderResult :=
  { numSequences := numWindows, emptyWarning := numWindows == 0 }

/-! ## Coordinate helper -/

/-- Position of one agent: exact planar coordinates.  The code stores
floats; the numeric contract of the spec is exact invertibility, which
we state over exact integers. -/
abbrev Pos := ℤ × ℤ

/-- Modelled from the spec: toRelative of coordinates_helpers (the
module is not in the repository snapshot).  Frame 0 gets the sentinel
(0, 0); frame t+1 gets the displacement positions[t+1] - positions[t]
when both mask bits hold, else the sentinel. -/
def toRelative (positions : Nat → Pos) (mask : Nat → Bool) : Nat → Pos
  | 0 => (0, 0)
  | t + 1 =>
      if mask (t + 1) && mask t then positions (t + 1) - positions t
      else (0, 0)

/-- Modelled from the spec: toAbsolute of coordinates_helpers (the
module is not in the repository snapshot).  Reconstructs absolute
positions by cumulative summation of displacements starting from the
origin position. -/
def toAbsolute (origin : Pos) (rel : Nat → Pos) : Nat → Pos
  | 0 => origin
  | t + 1 => toAbsolute origin rel t + rel (t + 1)

/-! ## Sequence windower -/

/-- Observation of one agent in one frame: agent id plus exact planar
coordinates. -/
structure Obs where
  agentId : Nat
  x : ℤ
  y : ℤ
  deriving DecidableEq, Repr

/-- Frame: a frame id plus the observations recorded at that frame. -/
structure Frame where
  frameId : Nat
  obs : List Obs
  deriving DecidableEq, Repr

/-- Windower parameters: trajectory_size = obsLen + predLen, the
maxNumPed cap, and the skip stride. -/
structure WindowerParams where
  trajectorySize : Nat
  maxNumPed : Nat
  skip : Nat
  deriving DecidableEq, Repr

/-- Scene window: the start index into the dataset's frame sequence,
the window's frames, and the ordered agent-slot table. -/
structure SceneWindow where
  startIdx : Nat
  frames : List Frame
  agents : List Nat
  deriving DecidableEq, Repr

/-- Appends an agent id to the accumulator unless already present,
preserving first-seen order. -/
def insertSeen (acc : List Nat) (a : Nat) : List Nat :=
  if a ∈ acc then acc else acc ++ [a]

/-- Agent ids present in at least one of the given frames, in
first-seen order (frame order, then observation order within a
frame). -/
def agentsIn (frames : List Frame) : List Nat :=
  frames.foldl (fun acc f => (f.obs.map Obs.agentId).foldl insertSeen acc) []

/-- Modelled from the spec: eligible window start indices — every
skip-th frame index i with i + trajectory_size ≤ number of frames. -/
def windowStarts (skip numFrames trajSize : Nat) : List Nat :=
  (List.range numFrames).filter
    (fun i => decide (i % skip = 0 ∧ i + trajSize ≤ numFrames))

/-- Modelled from the spec: the scene window starting at frame index i
— the trajectory_size consecutive frames from i, with the agent-slot
table the first-seen agents capped at maxNumPed. -/
def mkWindow (p : WindowerParams) (frames : List Frame) (i : Nat) :
    SceneWindow :=
  let fs := (frames.drop i).take p.trajectorySize
  { startIdx := i, frames := fs, agents := (agentsIn fs).take p.maxNumPed }

/-- Number of frames of the window in which agent a has an
observation. -/
def presentCount (w : SceneWindow) (a : Nat) : Nat :=
  (w.frames.filter (fun f => f.obs.any (fun o => o.agentId == a))).length

/-- Modelled from the spec: a window with fewer than 2 frames of the
primary agent's presence (the first agent slot) is excluded as
degenerate; a window with no agents at all is likewise excluded. -/
def keepWindow (w : SceneWindow) : Bool :=
  match w.agents with
  | [] => false
  | a :: _ => 2 ≤ presentCount w a

/-- Modelled from the spec: the Sequence Windower (utils.DataLoader is
not in the repository snapshot).  Slides a trajectory_size window over
every skip-th frame index, builds each window with the capped
first-seen agent table, and drops degenerate windows.  A pure function
of the parameters and the dataset: the full produced window sequence. -/
def windows (p : WindowerParams) (frames : List Frame) : List SceneWindow :=
  ((windowStarts p.skip frames.length p.trajectorySize).map
    (mkWindow p frames)).filter keepWindow

/-! ## Windower iteration handle -/

/-- Modelled from the spec: a restartable iteration handle over a
windower's output; orig is the full window sequence, rest the windows
not yet yielded. -/
structure WindowerIter where
  orig : List SceneWindow
  rest : List SceneWindow
  deriving DecidableEq, Repr

/-- Modelled from the spec: resetting an iteration handle
re-establishes the first window, discarding any in-flight cursor
state. -/
def resetIter (it : WindowerIter) : WindowerIter :=
  { orig := it.orig, rest := it.orig }

/-- Modelled from the spec: advancing a handle yields the next window
and the advanced handle, or nothing when exhausted. -/
def nextWindow (it : WindowerIter) : Option (SceneWindow × WindowerIter) :=
  match it.rest with
  | [] => none
  | w :: r => some (w, { orig := it.orig, rest := r })

/-- Runs an iteration handle for at most fuel advances, collecting the
yielded windows in order. -/
def iterate : Nat → WindowerIter → List SceneWindow
  | 0, _ => []
  | fuel + 1, it =>
      match nextWindow it with
      | none => []
      | some (w, it') => w :: iterate fuel it'

/-- Fresh iteration handle over the windower output for one dataset. -/
def mkIter (p : WindowerParams) (frames : List Frame) : WindowerIter :=
  { orig := windows p frames, rest := windows p frames }

/-! ## Batch assembler handle and the epoch loop (train.py lines 202-240) -/

/-- Batch-assembler iteration handle over an epoch of total windows:
cursor counts the windows already consumed. -/
structure BatchIter where
  total : Nat
  cursor : Nat
  deriving DecidableEq, Repr

/-- Modelled from the spec: initializing an iterator (sess.run of
init_train or init_val) deterministically re-establishes the first
window. -/
def initIter (total : Nat) : BatchIter :=
  { total := total, cursor := 0 }

/-- Modelled from the spec: advancing the Batch Assembler's iteration
handle past the last window of an epoch raises EndOfEpoch; before that
it yields the next window index. -/
def advanceIter (it : BatchIter) : Except TrainError (Nat × BatchIter) :=
  if it.cursor < it.total then
    .ok (it.cursor, { total := it.total, cursor := it.cursor + 1 })
  else .error .endOfEpoch

/-- Embedding of one phase of the epoch loop in train.py (lines 210-223
for training, 232-234 for validation): a counted for-loop performing
exactly n advances, with no exception handler — an error raised by an
advance propagates out of the loop. -/
def runPhase : Nat → BatchIter → Except TrainError BatchIter
  | 0, it => .ok it
  | n + 1, it =>
      match advanceIter it with
      | .error e => .error e
      | .ok (_, it') => runPhase n it'

/-- Embedding of one epoch of train.py lines 202-240: initialize the
train iterator, run num_sequences training steps, initialize the
validation iterator, run num_sequences validation steps.  Nothing in
the loop body catches any condition. -/
def runEpoch (trainTotal valTotal : Nat) : Except TrainError BatchIter := do
  let itTrain := initIter trainTotal
  let _ ← runPhase trainTotal itTrain
  let itVal := initIter valTotal
  runPhase valTotal itVal

/-! ## Loader construction arguments (train.py lines 113-132) -/

/-- Hyper-parameters of one experiment that the loader construction in
main reads. -/
structure HParams where
  obsLen : Nat
  predLen : Nat
  skip : Nat
  maxNumPed : Nat
  deriving DecidableEq, Repr

/-- Arguments main passes to a utils.DataLoader call. -/
structure LoaderArgs where
  skip : Nat
  maxNumPed : Nat
  trajectorySize : Nat
  deriving DecidableEq, Repr

/-- Embedding of train.py line 113: trajectory_size = hparams.obsLen +
hparams.predLen. -/
def trajectorySizeOf (h : HParams) : Nat :=
  h.obsLen + h.predLen

/-- Embedding of train.py lines 116-123: the arguments of the training
DataLoader call. -/
def trainLoaderArgs (h : HParams) : LoaderArgs :=
  { skip := h.skip, maxNumPed := h.maxNumPed,
    trajectorySize := trajectorySizeOf h }

/-- Embedding of train.py lines 125-132: the arguments of the
validation DataLoader call. -/
def valLoaderArgs (h : HParams) : LoaderArgs :=
  { skip := h.skip, maxNumPed := h.maxNumPed,
    trajectorySize := trajectorySizeOf h }

/-- Windower parameters induced by one DataLoader call's arguments. -/
def paramsOf (a : LoaderArgs) : WindowerParams :=
  { trajectorySize := a.trajectorySize, maxNumPed := a.maxNumPed,
    skip := a.skip }

/-! ## Model-saving locals (train.py lines 179-254) -/

/-- Truthiness of the Python value hparams.modelFolder: none models an
unset value (None), and the empty string is falsy as well. -/
def folderTruthy (modelFolder : Option String) : Bool :=
  match modelFolder with
  | none => false
  | some s => s ≠ ""

/-- Embedding of train.py lines 179-188: the local save_model is
assigned (to True) only inside the branch taken when
hparams.modelFolder is truthy; on the falsy path the local stays
unbound, which we model as none. -/
def setupSaveModel (modelFolder : Option String) : Option Bool :=
  if folderTruthy modelFolder then some true else none

/-- Embedding of the guard at train.py line 243: evaluating the bare
local save_model raises UnboundLocalError when it was never assigned,
otherwise yields its value. -/
def evalSaveGuard (saveModelLocal : Option Bool) : Except TrainError Bool :=
  match saveModelLocal with
  | none => .error .unboundLocal
  | some b => .ok b

/-- Embedding of the tail of the first epoch (train.py lines 229-250):
the validation phase computes mean_val, then the save guard is
evaluated.  Returns the pair (mean_val, whether a save occurs). -/
def epochTail (losses : Nat → ℚ) (numVal : Nat)
    (saveModelLocal : Option Bool) : Except TrainError (ℚ × Bool) := do
  let m ← validationPhase losses numVal
  let b ← evalSaveGuard saveModelLocal
  return (m, b)

/-! ## Logger level selection (train.py lines 36-40) -/

/-- Attribute table of a YParams object: keys mapped to a possibly-null
string value.  A key absent from the table has no attribute at all. -/
abbrev AttrTable := List (String × Option String)

/-- Python attribute access on the parameters object: AttributeError
when the key is absent, otherwise the stored (possibly null) value. -/
def getAttr (hp : AttrTable) (k : String) :
    Except TrainError (Option String) :=
  match hp.find? (fun p => p.1 == k) with
  | none => .error .attributeError
  | some p => .ok p.2

/-- Embedding of train.py lines 36-40: if args.logLevel is set, use it
uppercased; otherwise test hparams.logLeve (sic) against None, and when
it is not None read hparams.logLevel and uppercase it (uppercasing None
is itself an AttributeError); when hparams.logLeve is None the default
INFO stands. -/
def selectLevel (argsLogLevel : Option String) (hp : AttrTable) :
    Except TrainError String :=
  match argsLogLevel with
  | some l => .ok l.toUpper
  | none =>
      match getAttr hp "logLeve" with
      | .error e => .error e
      | .ok none => .ok "INFO"
      | .ok (some _) =>
          match getAttr hp "logLevel" with
          | .error e => .error e
          | .ok none => .error .attributeError
          | .ok (some s) => .ok s.toUpper

/-! ## Model-folder creation (train.py lines 179-186) -/

/-- Joins two path components with a separator, as os.path.join does
for relative components. -/
def joinPath (a b : String) : String :=
  a ++ "/" ++ b

/-- Embedding of train.py lines 181-184 as a transformation of the set
of existing directories: when model_folder does not exist, both it and
its checkpoints subdirectory are created; when it already exists,
nothing is created at all. -/
def setupModelFolders (fs : List String) (modelFolder : String) :
    List String :=
  if modelFolder ∈ fs then fs
  else joinPath modelFolder "checkpoints" :: modelFolder :: fs

/-- Embedding of train.py line 186: the path prefix the per-epoch
checkpoint save targets, a file inside the checkpoints
subdirectory. -/
def checkpointsPath (modelFolder name : String) : String :=
  joinPath (joinPath modelFolder "checkpoints") name

/-! ## Claim C1: unrecognized single pooling name -/

/-- Claim C1 counterexample: with poolingModule the single unrecognized
name "other", the pooling dispatch of main does not fail with a
ConfigError; it succeeds and leaves the model with no pooling module,
refuting the claim that construction fails before any windowing
occurs. -/
theorem setupPooling_unknown_single_counterexample :
    setupPooling (.single "other") = .ok { poolingModule := none } ∧
    setupPooling (.single "other") ≠ .error .configError := by
  refine ⟨rfl, ?_⟩
  intro hcontr
  simp [setupPooling] at hcontr

/-- Claim C1 (amended): for every configuration whose poolingModule is
a single name that is neither "social" nor "occupancy" and is not a
list, construction does not fail: the dispatch raises nothing and the
model is silently built with no pooling module (pooling_module stays
None). -/
theorem setupPooling_unknown_single (n : String)
    (h₁ : n ≠ "social") (h₂ : n ≠ "occupancy") :
    setupPooling (.single n) = .ok { poolingModule := none } := by
  simp [setupPooling, h₁, h₂]

/-- Claim C1 witness: the amended claim instantiated at the concrete
unrecognized name "other". -/
theorem setupPooling_unknown_single_witness :
    setupPooling (.single "other") = .ok { poolingModule := none } :=
  setupPooling_unknown_single "other" (by decide) (by decide)

/-! ## Claim C2: zero-window validation split -/

/-- Claim C2 counterexample: a validation split with zero windows does
construct (with the warning flag set), but the epoch's validation phase
then crashes: mean_val divides the accumulated loss by
val_loader.num_sequences with no guard, raising ZeroDivisionError —
refuting the claim that the caller does not crash. -/
theorem validationPhase_zero_counterexample :
    (mkLoader 0).emptyWarning = true ∧
    validationPhase (fun _ => (0 : ℚ)) (mkLoader 0).numSequences
      = .error .zeroDivision := by
  refine ⟨rfl, ?_⟩
  simp [validationPhase, pyDiv, mkLoader]

/-- Claim C2 (amended): a split that produces zero windows still
constructs successfully and raises EmptyDatasetWarning, but the caller
does crash: the validation phase of every epoch divides by
val_loader.num_sequences, so a zero-sequence validation split raises
ZeroDivisionError instead of proceeding. -/
theorem validationPhase_zero (losses : Nat → ℚ) (numWindows : Nat)
    (h : numWindows = 0) :
    (mkLoader numWindows).emptyWarning = true ∧
    validationPhase losses (mkLoader numWindows).numSequences
      = .error .zeroDivision := by
  subst h
  refine ⟨rfl, ?_⟩
  simp [validationPhase, pyDiv, mkLoader]

/-- Claim C2 witness: the amended claim instantiated at a concrete
zero-window split. -/
theorem validationPhase_zero_witness :
    (mkLoader 0).emptyWarning = true ∧
    validationPhase (fun _ => (1 : ℚ)) (mkLoader 0).numSequences
      = .error .zeroDivision :=
  validationPhase_zero (fun _ => (1 : ℚ)) 0 rfl

/-! ## Claim C8: unbound save_model local -/

/-- Claim C8: when hparams.modelFolder is falsy (unset or the empty
string), the local save_model is never assigned, so after the first
epoch's validation phase completes the guard deciding whether to save
raises UnboundLocalError — the epoch tail errors instead of returning
any (mean, saved) outcome. -/
theorem epochTail_unbound_save (losses : Nat → ℚ) (numVal : Nat)
    (mf : Option String) (hmf : folderTruthy mf = false)
    (hn : 0 < numVal) :
    epochTail losses numVal (setupSaveModel mf) = .error .unboundLocal := by
  have hv : (numVal : ℚ) ≠ 0 := by
    exact_mod_cast Nat.pos_iff_ne_zero.mp hn
  simp only [epochTail, validationPhase, pyDiv, setupSaveModel, hmf,
    evalSaveGuard, if_neg hv, Bool.false_eq_true, if_false]
  rfl

/-- Claim C8 witness: the unbound-local crash at a concrete experiment
with modelFolder unset and one validation sequence. -/
theorem epochTail_unbound_save_witness :
    epochTail (fun _ => (0 : ℚ)) 1 (setupSaveModel none)
      = .error .unboundLocal :=
  epochTail_unbound_save (fun _ => (0 : ℚ)) 1 none rfl (by decide)

/-! ## Claim C9: misspelled logLeve attribute -/

/-- Claim C9: when the command-line logLevel argument is absent, the
level-selection branch reads the misspelled attribute hparams.logLeve;
for every parameters object lacking that key — in particular one that
defines only logLevel — the access raises AttributeError, so a
configuration-file level is never applied through this branch. -/
theorem selectLevel_misspelled (hp : AttrTable)
    (h : hp.find? (fun p => p.1 == "logLeve") = none) :
    selectLevel none hp = .error .attributeError := by
  simp [selectLevel, getAttr, h]

/-- Claim C9 witness: a parameters object that defines only logLevel
(and not the misspelled logLeve) crashes the level selection. -/
theorem selectLevel_misspelled_witness :
    selectLevel none [("logLevel", some "debug")]
      = .error .attributeError :=
  selectLevel_misspelled [("logLevel", some "debug")] rfl

/-! ## Claim C10: checkpoints directory only created with a fresh model folder -/

/-- Claim C10: the checkpoints subdirectory is created only when the
experiment's model folder did not already exist; when the model folder
pre-exists without a checkpoints subdirectory, the directory setup
changes nothing, and the per-epoch checkpoint save path lies inside a
directory that still does not exist. -/
theorem setupModelFolders_preexisting (fs : List String)
    (mf name : String) (h₁ : mf ∈ fs)
    (h₂ : joinPath mf "checkpoints" ∉ fs) :
    setupModelFolders fs mf = fs ∧
    joinPath mf "checkpoints" ∉ setupModelFolders fs mf ∧
    checkpointsPath mf name = joinPath (joinPath mf "checkpoints") name := by
  refine ⟨?_, ?_, rfl⟩
  · simp [setupModelFolders, h₁]
  · simp [setupModelFolders, h₁, h₂]

/-- Claim C10 witness: a concrete pre-existing model folder with no
checkpoints subdirectory. -/
theorem setupModelFolders_preexisting_witness :
    setupModelFolders ["models/exp"] "models/exp" = ["models/exp"] ∧
    joinPath "models/exp" "checkpoints"
      ∉ setupModelFolders ["models/exp"] "models/exp" ∧
    checkpointsPath "models/exp" "exp"
      = joinPath (joinPath "models/exp" "checkpoints") "exp" :=
  setupModelFolders_preexisting ["models/exp"] "models/exp" "exp"
    (by decide) (by decide)

/-! ## Claim C3: coordinate round-trip -/

/-- Claim C3: for every position sequence and mask with a fully valid
mask chain from frame 0 to frame t, toAbsolute applied to the frame-0
position and the output of toRelative reproduces the original position
at frame t exactly. -/
theorem toAbsolute_toRelative_roundTrip (positions : Nat → Pos)
    (mask : Nat → Bool) (t : Nat) (h : ∀ s, s ≤ t → mask s = true) :
    toAbsolute (positions 0) (toRelative positions mask) t = positions t := by
  induction t with
  | zero => rfl
  | succ t ih =>
      have hmask : (mask (t + 1) && mask t) = true := by
        rw [h (t + 1) le_rfl, h t (Nat.le_succ t)]
        rfl
      have ih' := ih (fun s hs => h s (Nat.le_succ_of_le hs))
      show toAbsolute (positions 0) (toRelative positions mask) t +
        toRelative positions mask (t + 1) = positions (t + 1)
      rw [ih']
      simp only [toRelative, hmask, if_true]
      abel

/-- Claim C3 witness: the round-trip at a concrete moving trajectory
with an all-true mask, at frame 3. -/
theorem toAbsolute_toRelative_roundTrip_witness :
    toAbsolute ((fun t => ((t : ℤ), 2 * (t : ℤ) + 1)) 0)
      (toRelative (fun t => ((t : ℤ), 2 * (t : ℤ) + 1)) (fun _ => true)) 3
      = (fun t => ((t : ℤ), 2 * (t : ℤ) + 1)) 3 :=
  toAbsolute_toRelative_roundTrip
    (fun t => ((t : ℤ), 2 * (t : ℤ) + 1)) (fun _ => true) 3
    (fun _ _ => rfl)

/-! ## Claim C4: EndOfEpoch and the epoch loop -/

/-- Lemma: a counted phase whose step budget fits inside the remaining
windows never errors and just moves the cursor forward. -/
theorem runPhase_within (k : Nat) :
    ∀ it : BatchIter, it.cursor + k ≤ it.total →
      runPhase k it = .ok { total := it.total, cursor := it.cursor + k } := by
  induction k with
  | zero => intro it _; rfl
  | succ k ih =>
      intro it hle
      have hlt : it.cursor < it.total := by omega
      have hstep : advanceIter it
          = .ok (it.cursor, { total := it.total, cursor := it.cursor + 1 }) := by
        simp [advanceIter, hlt]
      have := ih { total := it.total, cursor := it.cursor + 1 } (by simp; omega)
      simp only [runPhase, hstep]
      rw [this]
      simp
      omega

/-- Lemma: a counted phase budgeted one past the remaining windows hits
the EndOfEpoch error, which propagates out of the loop (the loop body
has no handler). -/
theorem runPhase_overrun (k : Nat) :
    ∀ it : BatchIter, it.cursor + k = it.total →
      runPhase (k + 1) it = .error .endOfEpoch := by
  induction k with
  | zero =>
      intro it h
      have hnlt : ¬ it.cursor < it.total := by omega
      simp [runPhase, advanceIter, hnlt]
  | succ k ih =>
      intro it h
      have hlt : it.cursor < it.total := by omega
      have hstep : advanceIter it
          = .ok (it.cursor, { total := it.total, cursor := it.cursor + 1 }) := by
        simp [advanceIter, hlt]
      have := ih { total := it.total, cursor := it.cursor + 1 } (by simp; omega)
      simp only [runPhase, hstep]
      exact this

/-- Claim C4 counterexample: at a concrete epoch (2 training windows, 1
validation window, num_sequences matching), the epoch loop completes
with a plain success and no EndOfEpoch condition is ever raised — so
the external loop has no EndOfEpoch to catch at the epoch boundary,
refuting the claim that it catches this condition on every epoch. -/
theorem runEpoch_no_endOfEpoch_counterexample :
    runEpoch 2 1 = .ok { total := 1, cursor := 1 } ∧
    runEpoch 2 1 ≠ .error .endOfEpoch := by
  refine ⟨rfl, ?_⟩
  intro hcontr
  exact Except.noConfusion hcontr

/-- Claim C4 (amended): advancing the Batch Assembler's handle past the
last window raises EndOfEpoch, but the external training loop never
catches it: each phase performs exactly num_sequences counted advances
after reinitializing its iterator, so the phase ends in success with no
EndOfEpoch raised, and a phase that did overrun by one would propagate
EndOfEpoch uncaught (the loop has no handler). -/
theorem endOfEpoch_uncaught (n : Nat) (it : BatchIter)
    (h : it.cursor = it.total) :
    advanceIter it = .error .endOfEpoch ∧
    runPhase n (initIter n) = .ok { total := n, cursor := n } ∧
    runPhase (n + 1) (initIter n) = .error .endOfEpoch := by
  refine ⟨?_, ?_, ?_⟩
  · have hnlt : ¬ it.cursor < it.total := by omega
    simp [advanceIter, hnlt]
  · have := runPhase_within n (initIter n) (by simp [initIter])
    simpa [initIter] using this
  · exact runPhase_overrun n (initIter n) (by simp [initIter])

/-- Claim C4 witness: the amended claim at a concrete exhausted handle
and a concrete 2-window epoch. -/
theorem endOfEpoch_uncaught_witness :
    advanceIter { total := 3, cursor := 3 } = .error .endOfEpoch ∧
    runPhase 2 (initIter 2) = .ok { total := 2, cursor := 2 } ∧
    runPhase 3 (initIter 2) = .error .endOfEpoch :=
  endOfEpoch_uncaught 2 { total := 3, cursor := 3 } rfl

/-! ## Claim C5: windower determinism across restarts -/

/-- Lemma: running an iteration handle yields exactly the not-yet-consumed
windows, truncated by the fuel. -/
theorem iterate_eq_take (fuel : Nat) :
    ∀ o r : List SceneWindow,
      iterate fuel { orig := o, rest := r } = r.take fuel := by
  induction fuel with
  | zero => intro o r; rfl
  | succ fuel ih =>
      intro o r
      cases r with
      | nil => rfl
      | cons w r' =>
          simp only [iterate, nextWindow, List.take]
          rw [ih]

/-- Claim C5: iterating a Windower twice from reset yields identical
window sequences in the same order — both runs equal the full window
sequence of the dataset, independently of any cursor state the handle
held before the reset. -/
theorem windower_restart_deterministic (p : WindowerParams)
    (data : List Frame) (it : WindowerIter)
    (h : it.orig = windows p data) (fuel₁ fuel₂ : Nat)
    (h₁ : (windows p data).length ≤ fuel₁)
    (h₂ : (windows p data).length ≤ fuel₂) :
    iterate fuel₁ (resetIter it) = iterate fuel₂ (resetIter it) ∧
    iterate fuel₁ (resetIter it) = windows p data := by
  have run : ∀ fuel, (windows p data).length ≤ fuel →
      iterate fuel (resetIter it) = windows p data := by
    intro fuel hf
    simp only [resetIter, h]
    rw [iterate_eq_take]
    exact List.take_of_length_le hf
  exact ⟨(run fuel₁ h₁).trans (run fuel₂ h₂).symm, run fuel₁ h₁⟩

/-- Sample observation constructor for concrete witnesses. -/
def sampleObs (a : Nat) (x y : ℤ) : Obs :=
  { agentId := a, x := x, y := y }

/-- Sample dataset for concrete witnesses: three frames, three agents,
agent 0 present in every frame. -/
def sampleData : List Frame :=
  [{ frameId := 0, obs := [sampleObs 0 0 0, sampleObs 1 2 2, sampleObs 2 5 5] },
   { frameId := 1, obs := [sampleObs 0 1 1, sampleObs 1 3 3, sampleObs 2 6 6] },
   { frameId := 2, obs := [sampleObs 0 2 2] }]

/-- Sample windower parameters for concrete witnesses: window length 2,
cap 2, skip 1. -/
def sampleParams : WindowerParams :=
  { trajectorySize := 2, maxNumPed := 2, skip := 1 }

/-- Claim C5 witness: determinism across restarts at the concrete
sample dataset, with two different fuel budgets both covering the full
window sequence. -/
theorem windower_restart_deterministic_witness :
    iterate 2 (resetIter (mkIter sampleParams sampleData))
      = iterate 3 (resetIter (mkIter sampleParams sampleData)) ∧
    iterate 2 (resetIter (mkIter sampleParams sampleData))
      = windows sampleParams sampleData :=
  windower_restart_deterministic sampleParams sampleData
    (mkIter sampleParams sampleData) rfl 2 3 (by decide) (by decide)

/-! ## Claim C6: maxNumPed cap -/

/-- Claim C6: every produced Scene Window carries at most maxNumPed
agent-slots, and its slot table is exactly the deterministic selection
policy's output — the first-seen agents of the window's frames,
truncated at maxNumPed — so excess agents are dropped rather than the
windower failing. -/
theorem windows_maxNumPed_cap (p : WindowerParams) (data : List Frame)
    (w : SceneWindow) (h : w ∈ windows p data) :
    w.agents.length ≤ p.maxNumPed ∧
    w.agents = (agentsIn w.frames).take p.maxNumPed := by
  obtain ⟨hmem, -⟩ := List.mem_filter.mp h
  obtain ⟨i, -, hi⟩ := List.mem_map.mp hmem
  subst hi
  exact ⟨List.length_take_le _ _, rfl⟩

/-- Sample window for concrete witnesses: the first window the sample
parameters produce over the sample dataset; its frames contain three
agents but its slot table keeps only the first two seen. -/
def sampleWindow : SceneWindow :=
  { startIdx := 0, frames := sampleData.take 2, agents := [0, 1] }

/-- Claim C6 witness: the cap at a concrete window of the sample
dataset, whose frames contain three agents but whose slot table keeps
only the first two seen. -/
theorem windows_maxNumPed_cap_witness :
    sampleWindow.agents.length ≤ sampleParams.maxNumPed ∧
    sampleWindow.agents
      = (agentsIn sampleWindow.frames).take sampleParams.maxNumPed :=
  windows_maxNumPed_cap sampleParams sampleData sampleWindow (by decide)

/-! ## Claim C7: trajectory_size wiring and window span -/

/-- Claim C7: main passes trajectory_size = obsLen + predLen to both
the train and validation loader calls, and every Scene Window the
windower produces under those arguments spans exactly that many
consecutive frames — its frame list has length obsLen + predLen and is
precisely the contiguous slice of the dataset starting at its start
index. -/
theorem trajectory_size_wiring (h : HParams) (data : List Frame)
    (w : SceneWindow)
    (hw : w ∈ windows (paramsOf (trainLoaderArgs h)) data) :
    (trainLoaderArgs h).trajectorySize = h.obsLen + h.predLen ∧
    (valLoaderArgs h).trajectorySize = h.obsLen + h.predLen ∧
    w.frames.length = h.obsLen + h.predLen ∧
    w.frames = (data.drop w.startIdx).take (h.obsLen + h.predLen) := by
  obtain ⟨hmem, -⟩ := List.mem_filter.mp hw
  obtain ⟨i, histarts, hi⟩ := List.mem_map.mp hmem
  obtain ⟨-, hcond⟩ := List.mem_filter.mp histarts
  obtain ⟨-, hbound⟩ := of_decide_eq_true hcond
  subst hi
  refine ⟨rfl, rfl, ?_, rfl⟩
  simp only [mkWindow, List.length_take, List.length_drop, paramsOf,
    trainLoaderArgs, trajectorySizeOf]
  have hbound' : i + (h.obsLen + h.predLen) ≤ data.length := hbound
  omega

/-- Sample hyper-parameters for concrete witnesses: obsLen 1, predLen
1, skip 1, maxNumPed 2, inducing the sample windower parameters. -/
def sampleHParams : HParams :=
  { obsLen := 1, predLen := 1, skip := 1, maxNumPed := 2 }

/-- Claim C7 witness: the wiring and window span at the concrete sample
hyper-parameters over the sample dataset, at the window starting at
frame index 0. -/
theorem trajectory_size_wiring_witness :
    (trainLoaderArgs sampleHParams).trajectorySize
      = sampleHParams.obsLen + sampleHParams.predLen ∧
    (valLoaderArgs sampleHParams).trajectorySize
      = sampleHParams.obsLen + sampleHParams.predLen ∧
    sampleWindow.frames.length
      = sampleHParams.obsLen + sampleHParams.predLen ∧
    sampleWindow.frames = (sampleData.drop sampleWindow.startIdx).take
      (sampleHParams.obsLen + sampleHParams.predLen) :=
  trajectory_size_wiring sampleHParams sampleData sampleWindow (by decide)

end SnsLstm
